import Mathlib

/-!
Shallow embedding of the konnect services API (Go, Gin + MySQL).

The embedding translates the application-layer code:
  * `pkg/utils/pagination.go` — parameter extraction and pagination math,
  * `internal/database/service.go` / `internal/database/version.go` — the SQL
    accessors, modelled as pure functions over an explicit relational state,
  * `internal/handlers/services.go` / `internal/handlers/versions.go` — the
    HTTP handlers, modelled as functions from request data and store state to
    a response value (and, for mutating handlers, the successor state).

Go `int` is modelled as `Int` (64-bit overflow is irrelevant at every point
the theorems touch; `strconv.Atoi` keeps its 64-bit range error).  Storage
engine internals (MySQL's full-text MATCH ... AGAINST ranking) are abstracted
as an explicit engine parameter, as the code delegates them wholesale to the
store.  Storage-level constraint enforcement (unique keys, the foreign key,
the ENUM check) is the storage engine's, not the application's; the
application-layer semantics of each SQL statement is modelled directly.
-/

namespace Konnect

/-! ## Data model (`internal/models/service.go`, `internal/models/version.go`,
`migrations/0001_init.sql`) -/

/-- Embeds `models.Service`: one row of the `services` table / one JSON entity.
`created_at` and `updated_at` are `TIMESTAMP NOT NULL DEFAULT
CURRENT_TIMESTAMP` columns scanned into Go strings; `versions_count` is the
denormalized counter column (`INT NOT NULL DEFAULT 0`). -/
structure Service where
  ID : String
  Name : String
  Slug : String
  Description : String
  CreatedAt : String
  UpdatedAt : String
  VersionsCount : Int
deriving Repr, DecidableEq

/-- Embeds `models.Version`: one row of the `versions` table / one JSON entity. -/
structure Version where
  ID : String
  ServiceID : String
  Semver : String
  Status : String
  Changelog : String
  CreatedAt : String
deriving Repr, DecidableEq

/-- The relational store visible to the accessors: the two tables, plus the
storage clock (`CURRENT_TIMESTAMP`, rendered by MySQL as a nonempty
`YYYY-MM-DD hh:mm:ss` string) that fills the defaulted timestamp columns. -/
structure DBState where
  services : List Service
  versions : List Version
  now : String
deriving Repr, DecidableEq

/-! ## `pkg/types` (declared in `cmd/api/main.go`): request/response shapes -/

/-- Embeds `types.PaginationParams` (Go ints). -/
structure PaginationParams where
  Page : Int
  PageSize : Int
deriving Repr, DecidableEq

/-- Embeds `types.SearchParams`. -/
structure SearchParams where
  Query : String
  Page : Int
  PageSize : Int
deriving Repr, DecidableEq

/-- Embeds `types.Pagination`: the pagination metadata envelope. -/
structure Pagination where
  Page : Int
  PageSize : Int
  Total : Int
  TotalPages : Int
  HasNext : Bool
  HasPrev : Bool
deriving Repr, DecidableEq

/-- The query-string portion of a request, as the handlers read it through
gin: `c.Query key` returns the parameter's value, or `""` when the parameter
is absent (gin does not distinguish absent from empty). -/
structure QueryParams where
  page : String
  pageSize : String
  q : String
deriving Repr, DecidableEq

/-! ## `strconv.Atoi` (Go standard library, as called by the extractors)

`strconv.Atoi s` = `strconv.ParseInt s 10 64` narrowed to `int`: an optional
single `+`/`-` sign followed by one or more decimal digits, rejected
(`err ≠ nil`) on an empty digit string, any non-digit, or a value outside
the signed 64-bit range.  `none` models any non-nil error. -/

namespace strconv

/-- Fold a digit list into its decimal value; `none` on any non-digit. -/
def decDigits (cs : List Char) : Option Nat :=
  cs.foldl
    (fun acc c =>
      match acc with
      | none => none
      | some n => if c.isDigit then some (n * 10 + (c.toNat - 48)) else none)
    (some 0)

/-- Embeds `strconv.Atoi`. -/
def Atoi (s : String) : Option Int :=
  match s.toList with
  | [] => none
  | c :: rest =>
    let signedDigits : Bool × List Char :=
      if c = '-' then (true, rest)
      else if c = '+' then (false, rest)
      else (false, c :: rest)
    match signedDigits with
    | (neg, digits) =>
      if digits.isEmpty then none
      else
        match decDigits digits with
        | none => none
        | some n =>
          if neg then
            if n ≤ 2 ^ 63 then some (-(n : Int)) else none
          else
            if n ≤ 2 ^ 63 - 1 then some ((n : Int)) else none

end strconv

/-! ## `pkg/utils/pagination.go` -/

namespace utils

/-- Embeds `utils.GetPaginationParams`: defaults `{Page := 1, PageSize := 10}`, each
field overridden only by a present, parseable, strictly positive value. -/
def GetPaginationParams (req : QueryParams) : PaginationParams :=
  let params : PaginationParams := { Page := 1, PageSize := 10 }
  let params :=
    if req.page ≠ "" then
      match strconv.Atoi req.page with
      | some page => if page > 0 then { params with Page := page } else params
      | none => params
    else params
  let params :=
    if req.pageSize ≠ "" then
      match strconv.Atoi req.pageSize with
      | some pageSize => if pageSize > 0 then { params with PageSize := pageSize } else params
      | none => params
    else params
  params

/-- Embeds `utils.GetSearchParams`: as `GetPaginationParams`, plus the raw `q`
parameter (empty string when absent, not normalized). -/
def GetSearchParams (req : QueryParams) : SearchParams :=
  let params : SearchParams := { Query := req.q, Page := 1, PageSize := 10 }
  let params :=
    if req.page ≠ "" then
      match strconv.Atoi req.page with
      | some page => if page > 0 then { params with Page := page } else params
      | none => params
    else params
  let params :=
    if req.pageSize ≠ "" then
      match strconv.Atoi req.pageSize with
      | some pageSize => if pageSize > 0 then { params with PageSize := pageSize } else params
      | none => params
    else params
  params

/-- Embeds `utils.CalculatePagination`.  Go's `/` on `int` truncates toward zero,
hence `Int.tdiv`. -/
def CalculatePagination (page pageSize total : Int) : Pagination :=
  let totalPages := (total + pageSize - 1).tdiv pageSize
  { Page := page
    PageSize := pageSize
    Total := total
    TotalPages := totalPages
    HasNext := decide (page < totalPages)
    HasPrev := decide (page > 1) }

end utils

/-! ## SQL statement semantics

Each accessor in `internal/database` issues fixed SQL statements; they are
modelled as pure functions over `DBState`.  `LIMIT ? OFFSET ?` is
`take`/`drop` over the ordered result set; `ORDER BY` is a stable sort with
the corresponding comparison.  `RowsAffected` of a `DELETE` is the number
of rows matched by its `WHERE` clause; for an `UPDATE` it is the number of
rows actually *changed*, because every DSN in the repository (Makefile,
`internal/database/connection.go`, the tests) omits `clientFoundRows`, the
go-sql-driver/mysql default under which MySQL reports changed rows — a
matched row whose columns already hold the assigned values counts zero. -/

/-- Insert `x` into an already-sorted list, before the first element it
compares `le` to. -/
def insertBy (le : α → α → Bool) (x : α) : List α → List α
  | [] => [x]
  | y :: ys => if le x y then x :: y :: ys else y :: insertBy le x ys

/-- Stable insertion sort; the model of SQL `ORDER BY`. -/
def sortBy (le : α → α → Bool) : List α → List α
  | [] => []
  | x :: xs => insertBy le x (sortBy le xs)

/-- The storage engine's full-text capability behind
`MATCH(name, description) AGAINST(? IN NATURAL LANGUAGE MODE)`: `isHit`
decides whether a row is a hit for a query, `rank` is its relevance score.
The code delegates both to MySQL and never inspects them. -/
structure SearchEngine where
  isHit : Service → String → Bool
  rank : Service → String → Int

/-- Comparison for `ORDER BY created_at DESC` (MySQL `TIMESTAMP` strings order
chronologically as strings in their canonical rendering). -/
def createdAtDescLE (a b : Service) : Bool :=
  decide (b.CreatedAt ≤ a.CreatedAt)

/-- Comparison for `ORDER BY MATCH(...) AGAINST(?) DESC, created_at DESC`. -/
def searchOrderLE (engine : SearchEngine) (q : String) (a b : Service) : Bool :=
  decide (engine.rank b q < engine.rank a q ∨
    (engine.rank a q = engine.rank b q ∧ b.CreatedAt ≤ a.CreatedAt))

namespace database

/-- Embeds `database.GetServices` (`internal/database/service.go`):
`SELECT COUNT(*) FROM services` then
`SELECT ... FROM services ORDER BY created_at DESC LIMIT ? OFFSET ?`,
returning `(services, total)`. -/
def GetServices (params : PaginationParams) (db : DBState) :
    List Service × Int :=
  let offset := (params.Page - 1) * params.PageSize
  let total : Int := db.services.length
  let rows :=
    ((sortBy createdAtDescLE db.services).drop offset.toNat).take
      params.PageSize.toNat
  (rows, total)

/-- Embeds `database.SearchServices`:
`SELECT COUNT(*) FROM services WHERE MATCH(name, description) AGAINST(?)`
then the same filter ordered by relevance (descending) with `created_at`
descending as tie-break, with `LIMIT ? OFFSET ?`. -/
def SearchServices (engine : SearchEngine) (params : SearchParams)
    (db : DBState) : List Service × Int :=
  let offset := (params.Page - 1) * params.PageSize
  let hits := db.services.filter (fun s => engine.isHit s params.Query)
  let total : Int := hits.length
  let rows :=
    ((sortBy (searchOrderLE engine params.Query) hits).drop offset.toNat).take
      params.PageSize.toNat
  (rows, total)

/-- Embeds `database.CreateService`:
`INSERT INTO services (id, name, slug, description) VALUES (?, ?, ?, ?)` —
only those four columns are supplied; `created_at`/`updated_at` take their
`CURRENT_TIMESTAMP` defaults and `versions_count` its `DEFAULT 0`. -/
def CreateService (service : Service) (db : DBState) : DBState :=
  { db with
      services := db.services ++
        [{ ID := service.ID
           Name := service.Name
           Slug := service.Slug
           Description := service.Description
           CreatedAt := db.now
           UpdatedAt := db.now
           VersionsCount := 0 }] }

/-- Embeds `database.GetServiceByID`:
`SELECT ... FROM services WHERE id = ?` via `QueryRow` — the first matching
row, or `none` for `sql.ErrNoRows`. -/
def GetServiceByID (id : String) (db : DBState) : Option Service :=
  db.services.find? (fun s => s.ID == id)

/-- Whether `UPDATE services SET name = ?, slug = ?, description = ?
WHERE id = ?` actually changes row `r`: it is matched by the `WHERE`
clause and at least one assigned column differs from its current value. -/
def serviceChanges (id : String) (service : Service) (r : Service) : Bool :=
  r.ID == id &&
    !(r.Name == service.Name && r.Slug == service.Slug &&
      r.Description == service.Description)

/-- Embeds `database.UpdateService`:
`UPDATE services SET name = ?, slug = ?, description = ? WHERE id = ?`,
returning `RowsAffected`.  The repository's DSNs omit `clientFoundRows`,
so go-sql-driver/mysql reports the rows *changed*: a matched row whose
name, slug and description already equal the assigned values counts zero
and is left untouched by MySQL — in particular the schema's
`ON UPDATE CURRENT_TIMESTAMP` does not fire on it; on a changed row it
refreshes `updated_at`. -/
def UpdateService (id : String) (service : Service) (db : DBState) :
    DBState × Int :=
  let rowsAffected : Int :=
    (db.services.filter (serviceChanges id service)).length
  ({ db with
      services := db.services.map (fun r =>
        if serviceChanges id service r then
          { r with
              Name := service.Name
              Slug := service.Slug
              Description := service.Description
              UpdatedAt := db.now }
        else r) },
   rowsAffected)

/-- Embeds `database.DeleteService`:
`DELETE FROM services WHERE id = ?`, returning `RowsAffected`. -/
def DeleteService (id : String) (db : DBState) : DBState × Int :=
  let rowsAffected : Int := (db.services.filter (fun r => r.ID == id)).length
  ({ db with services := db.services.filter (fun r => !(r.ID == id)) },
   rowsAffected)

/-! ### `internal/database/version.go` -/

/-- Comparison for `ORDER BY created_at DESC` over versions. -/
def versionCreatedAtDescLE (a b : Version) : Bool :=
  decide (b.CreatedAt ≤ a.CreatedAt)

/-- Embeds `database.GetVersions`:
`SELECT COUNT(*) FROM versions WHERE service_id = ?` then
`SELECT ... FROM versions WHERE service_id = ? ORDER BY created_at DESC
LIMIT ? OFFSET ?`. -/
def GetVersions (serviceID : String) (params : PaginationParams)
    (db : DBState) : List Version × Int :=
  let offset := (params.Page - 1) * params.PageSize
  let hits := db.versions.filter (fun v => v.ServiceID == serviceID)
  let total : Int := hits.length
  let rows :=
    ((sortBy versionCreatedAtDescLE hits).drop offset.toNat).take
      params.PageSize.toNat
  (rows, total)

/-- The row inserted by
`INSERT INTO versions (id, service_id, semver, status, changelog) VALUES
(?, ?, ?, ?, ?)`: `created_at` takes its `CURRENT_TIMESTAMP` default. -/
def insertedVersionRow (version : Version) (now : String) : Version :=
  { version with CreatedAt := now }

/-- Embeds `UPDATE services SET versions_count = versions_count + 1 WHERE id = ?`:
successor state and `RowsAffected` (for this statement every matched row is
changed, since the increment always alters `versions_count`, so MySQL's
changed-rows count equals the matched rows — zero when no service has the
id; the caller discards it either way).  `ON UPDATE CURRENT_TIMESTAMP`
refreshes `updated_at` on updated rows. -/
def bumpVersionsCount (serviceID : String) (db : DBState) : DBState × Int :=
  let rowsAffected : Int :=
    (db.services.filter (fun s => s.ID == serviceID)).length
  ({ db with
      services := db.services.map (fun s =>
        if s.ID == serviceID then
          { s with VersionsCount := s.VersionsCount + 1, UpdatedAt := db.now }
        else s) },
   rowsAffected)

/-- Fault oracle for the version-creation transaction: which step, if any,
returns a non-nil error.  `insertFails` covers `tx.Exec` of the `INSERT`
(e.g. a storage-side constraint violation), `updateFails` the `UPDATE`,
`commitFails` `tx.Commit`. -/
inductive TxFault where
  | noFault
  | insertFails
  | updateFails
  | commitFails
deriving Repr, DecidableEq

/-- Embeds `database.CreateVersion`: `DB.Begin` opens a transaction (its writes are
staged against a private copy `tx` of the store and published only by
`Commit`); the deferred `tx.Rollback` discards the staged writes on every
early return (after a successful `Commit` it is a no-op whose error is only
logged).  The function returns the committed state on success and the error
alone on failure — the caller-visible store is then unchanged. -/
def CreateVersion (fault : TxFault) (version : Version) (db : DBState) :
    Except String DBState :=
  let tx := db
  if fault = TxFault.insertFails then Except.error "insert failed"
  else
    let tx := { tx with
      versions := tx.versions ++ [insertedVersionRow version tx.now] }
    if fault = TxFault.updateFails then Except.error "update failed"
    else
      let tx := (bumpVersionsCount version.ServiceID tx).1
      if fault = TxFault.commitFails then Except.error "commit failed"
      else Except.ok tx

/-- The store state an observer sees after `database.CreateVersion` returns:
the committed transaction on success, the untouched pre-state after a
rollback. -/
def visibleAfterCreateVersion (fault : TxFault) (version : Version)
    (db : DBState) : DBState :=
  match CreateVersion fault version db with
  | Except.ok db2 => db2
  | Except.error _ => db

end database

/-! ## HTTP responses

Each constructor records the status code the handler writes together with
the JSON payload fields the theorems inspect. -/

/-- Response of a list endpoint over services: `400 {"error": msg}` or
`200 {"data": ..., "pagination": ...}` (the pure store model has no failing
query, so the `500` passthrough branch is never taken). -/
inductive ServiceListResponse where
  | badRequest (msg : String)
  | ok (data : List Service) (pagination : Pagination)
deriving Repr, DecidableEq

/-- Response of the versions list endpoint. -/
inductive VersionListResponse where
  | badRequest (msg : String)
  | ok (data : List Version) (pagination : Pagination)
deriving Repr, DecidableEq

/-- Response of a single-service endpoint: `400`, `404`, `201 entity`,
`200 entity`, or `200 {"message": ...}` (delete). -/
inductive ServiceResponse where
  | badRequest (msg : String)
  | notFound (msg : String)
  | okEntity (service : Service)
  | created (service : Service)
  | okMessage (msg : String)
deriving Repr, DecidableEq

/-- Response of the version-creation endpoint: `400`, `500` (store error
text passed through), or `201 entity`. -/
inductive VersionResponse where
  | badRequest (msg : String)
  | serverError (msg : String)
  | created (version : Version)
deriving Repr, DecidableEq

/-- Whether a `ServiceListResponse` is the 400 branch. -/
def ServiceListResponse.isBadRequest : ServiceListResponse → Bool
  | ServiceListResponse.badRequest _ => true
  | ServiceListResponse.ok _ _ => false

/-- Whether a `VersionListResponse` is the 400 branch. -/
def VersionListResponse.isBadRequest : VersionListResponse → Bool
  | VersionListResponse.badRequest _ => true
  | VersionListResponse.ok _ _ => false

namespace handlers

/-- Embeds `handlers.GetServices` (`internal/handlers/services.go`): extract
pagination parameters, reject out-of-range values with 400, then query the
store and wrap the rows with `CalculatePagination`. -/
def GetServices (req : QueryParams) (db : DBState) : ServiceListResponse :=
  let params := utils.GetPaginationParams req
  if params.Page < 1 then
    ServiceListResponse.badRequest "page must be greater than 0"
  else if params.PageSize < 1 ∨ params.PageSize > 100 then
    ServiceListResponse.badRequest "page_size must be between 1 and 100"
  else
    let res := database.GetServices params db
    ServiceListResponse.ok res.1
      (utils.CalculatePagination params.Page params.PageSize res.2)

/-- Embeds `handlers.SearchServices`: as `GetServices`, but requires a non-empty
`q` (checked before the pagination range check and before any store
access). -/
def SearchServices (engine : SearchEngine) (req : QueryParams)
    (db : DBState) : ServiceListResponse :=
  let params := utils.GetSearchParams req
  if params.Query = "" then
    ServiceListResponse.badRequest "search query is required"
  else if params.Page < 1 then
    ServiceListResponse.badRequest "page must be greater than 0"
  else if params.PageSize < 1 ∨ params.PageSize > 100 then
    ServiceListResponse.badRequest "page_size must be between 1 and 100"
  else
    let res := database.SearchServices engine params db
    ServiceListResponse.ok res.1
      (utils.CalculatePagination params.Page params.PageSize res.2)

/-- Embeds `handlers.CreateService`: bind the JSON body into a `models.Service`
(every exported field is bindable; absent fields are zero-valued — the
well-formed-body path is modelled, the `ShouldBindJSON` failure branch being
a plain 400), overwrite `ID` with a fresh `uuid.New().String()`, insert, and
echo the in-memory struct with 201. -/
def CreateService (newID : String) (body : Service) (db : DBState) :
    ServiceResponse × DBState :=
  let service := { body with ID := newID }
  let db2 := database.CreateService service db
  (ServiceResponse.created service, db2)

/-- Embeds `handlers.GetService`: 404 on `sql.ErrNoRows`, else the entity. -/
def GetService (id : String) (db : DBState) : ServiceResponse :=
  match database.GetServiceByID id db with
  | none => ServiceResponse.notFound "Service not found"
  | some service => ServiceResponse.okEntity service

/-- Embeds `handlers.UpdateService`: bind the body, run the `UPDATE` keyed by the
path id, 404 when zero rows were affected, else 200 echoing the body with
`ID` overwritten by the path id. -/
def UpdateService (id : String) (body : Service) (db : DBState) :
    ServiceResponse × DBState :=
  let res := database.UpdateService id body db
  if res.2 == 0 then
    (ServiceResponse.notFound "Service not found", res.1)
  else
    (ServiceResponse.okEntity { body with ID := id }, res.1)

/-- Embeds `handlers.DeleteService`: 404 when zero rows were affected, else
`200 {"message": "Service deleted"}`. -/
def DeleteService (id : String) (db : DBState) : ServiceResponse × DBState :=
  let res := database.DeleteService id db
  if res.2 == 0 then
    (ServiceResponse.notFound "Service not found", res.1)
  else
    (ServiceResponse.okMessage "Service deleted", res.1)

/-- Embeds `handlers.GetVersions` (`internal/handlers/versions.go`). -/
def GetVersions (serviceID : String) (req : QueryParams) (db : DBState) :
    VersionListResponse :=
  let params := utils.GetPaginationParams req
  if params.Page < 1 then
    VersionListResponse.badRequest "page must be greater than 0"
  else if params.PageSize < 1 ∨ params.PageSize > 100 then
    VersionListResponse.badRequest "page_size must be between 1 and 100"
  else
    let res := database.GetVersions serviceID params db
    VersionListResponse.ok res.1
      (utils.CalculatePagination params.Page params.PageSize res.2)

/-- Embeds `handlers.CreateVersion`: bind the body (well-formed-body path),
overwrite `ID` with a fresh uuid and `ServiceID` with the path id — no
existence check on the service — call the transactional accessor, map a
non-nil error to `500` with the error text, else echo the struct with
`201`. -/
def CreateVersion (fault : database.TxFault) (serviceID newID : String)
    (body : Version) (db : DBState) : VersionResponse × DBState :=
  let version := { body with ID := newID, ServiceID := serviceID }
  match database.CreateVersion fault version db with
  | Except.error e => (VersionResponse.serverError e, db)
  | Except.ok db2 => (VersionResponse.created version, db2)

end handlers

/-! ## Normal form for the extractors

Both extractor functions apply the same pattern to each numeric field:
keep the default unless the parameter is present, parses, and is strictly
positive.  `positiveOr` is that pattern, used as a proof-side normal form. -/

/-- The per-field behavior of the extraction blocks in
`pkg/utils/pagination.go`. -/
def positiveOr (s : String) (d : Int) : Int :=
  if s ≠ "" then
    match strconv.Atoi s with
    | some v => if v > 0 then v else d
    | none => d
  else d

theorem Atoi_empty : strconv.Atoi "" = none := rfl

theorem GetPaginationParams_eq (req : QueryParams) :
    utils.GetPaginationParams req =
      { Page := positiveOr req.page 1, PageSize := positiveOr req.pageSize 10 } := by
  unfold utils.GetPaginationParams positiveOr
  by_cases e1 : req.page = "" <;> by_cases e2 : req.pageSize = "" <;>
    rcases h1 : strconv.Atoi req.page with _ | p <;>
    rcases h2 : strconv.Atoi req.pageSize with _ | q <;>
    simp [e1, e2, h1, h2] <;>
    first
      | rfl
      | (split <;> rfl)
      | (split <;> split <;> rfl)

theorem GetSearchParams_eq (req : QueryParams) :
    utils.GetSearchParams req =
      { Query := req.q
        Page := positiveOr req.page 1
        PageSize := positiveOr req.pageSize 10 } := by
  unfold utils.GetSearchParams positiveOr
  by_cases e1 : req.page = "" <;> by_cases e2 : req.pageSize = "" <;>
    rcases h1 : strconv.Atoi req.page with _ | p <;>
    rcases h2 : strconv.Atoi req.pageSize with _ | q <;>
    simp [e1, e2, h1, h2] <;>
    first
      | rfl
      | (split <;> rfl)
      | (split <;> split <;> rfl)

theorem positiveOr_pos (s : String) (d : Int) (hd : 1 ≤ d) :
    1 ≤ positiveOr s d := by
  unfold positiveOr
  split
  · rcases h : strconv.Atoi s with _ | v
    · exact hd
    · dsimp only
      split
      · omega
      · exact hd
  · exact hd

theorem positiveOr_verbatim (s : String) (d v : Int)
    (h : strconv.Atoi s = some v) (hv : 0 < v) : positiveOr s d = v := by
  have hs : s ≠ "" := by
    intro e
    rw [e, Atoi_empty] at h
    exact Option.noConfusion h
  unfold positiveOr
  rw [if_pos hs, h]
  simp [hv]

theorem positiveOr_default (s : String) (d : Int)
    (h : s = "" ∨ strconv.Atoi s = none ∨
      ∃ v, strconv.Atoi s = some v ∧ v ≤ 0) : positiveOr s d = d := by
  unfold positiveOr
  rcases h with h | h | ⟨v, hv, hv0⟩
  · simp [h]
  · split
    · simp [h]
    · rfl
  · split
    · simp only [hv]
      have : ¬v > 0 := by omega
      simp [this]
    · rfl

/-! ## Ceiling-division arithmetic for `CalculatePagination` -/

/-- Go's `(total + pageSize - 1) / pageSize` (truncating division) is exact
integer ceiling division for `total ≥ 0`, `pageSize ≥ 1`. -/
theorem tdiv_ceil_eq (total ps : Int) (hps : 1 ≤ ps) (ht : 0 ≤ total) :
    (total + ps - 1).tdiv ps = ⌈(total : ℚ) / (ps : ℚ)⌉ := by
  have hps0 : (0 : Int) < ps := by omega
  have hnum : (0 : Int) ≤ total + ps - 1 := by omega
  rw [Int.tdiv_eq_ediv hnum (le_of_lt hps0)]
  have hmod0 := Int.emod_nonneg (total + ps - 1) (ne_of_gt hps0)
  have hmodlt := Int.emod_lt_of_pos (total + ps - 1) hps0
  have hdiv := Int.ediv_add_emod (total + ps - 1) ps
  set q := (total + ps - 1) / ps with hq
  have h1 : total ≤ q * ps := by nlinarith
  have h2 : (q - 1) * ps < total := by nlinarith
  have hpsQ : (0 : ℚ) < (ps : ℚ) := by exact_mod_cast hps0
  symm
  rw [Int.ceil_eq_iff]
  constructor
  · rw [lt_div_iff₀ hpsQ]
    have h3 : ((q : ℚ) - 1) * (ps : ℚ) < (total : ℚ) := by exact_mod_cast h2
    exact h3
  · rw [div_le_iff₀ hpsQ]
    exact_mod_cast h1

/-- The two ceiling inequalities satisfied by `TotalPages`, in `Int`. -/
theorem tdiv_ceil_bounds (total ps : Int) (hps : 1 ≤ ps) (ht : 0 ≤ total) :
    total ≤ (total + ps - 1).tdiv ps * ps ∧
      ((total + ps - 1).tdiv ps - 1) * ps < total := by
  have hps0 : (0 : Int) < ps := by omega
  have hnum : (0 : Int) ≤ total + ps - 1 := by omega
  rw [Int.tdiv_eq_ediv hnum (le_of_lt hps0)]
  have hmod0 := Int.emod_nonneg (total + ps - 1) (ne_of_gt hps0)
  have hmodlt := Int.emod_lt_of_pos (total + ps - 1) hps0
  have hdiv := Int.ediv_add_emod (total + ps - 1) ps
  set q := (total + ps - 1) / ps with hq
  constructor
  · nlinarith
  · nlinarith

/-- Claim C2: for every `page ≥ 1`, `pageSize ≥ 1`, `total ≥ 0`,
`CalculatePagination` echoes `page`, `pageSize` and `total` unchanged,
computes `totalPages = ⌈total / pageSize⌉` (so `totalPages = 0` iff
`total = 0`), and sets `hasNext` iff `page < totalPages` and `hasPrev` iff
`page > 1`. -/
theorem CalculatePagination_spec (page pageSize total : Int)
    (_hp : 1 ≤ page) (hps : 1 ≤ pageSize) (ht : 0 ≤ total) :
    (utils.CalculatePagination page pageSize total).Page = page ∧
    (utils.CalculatePagination page pageSize total).PageSize = pageSize ∧
    (utils.CalculatePagination page pageSize total).Total = total ∧
    (utils.CalculatePagination page pageSize total).TotalPages =
      ⌈(total : ℚ) / (pageSize : ℚ)⌉ ∧
    ((utils.CalculatePagination page pageSize total).TotalPages = 0 ↔
      total = 0) ∧
    ((utils.CalculatePagination page pageSize total).HasNext = true ↔
      page < (utils.CalculatePagination page pageSize total).TotalPages) ∧
    ((utils.CalculatePagination page pageSize total).HasPrev = true ↔
      page > 1) := by
  have hbounds := tdiv_ceil_bounds total pageSize hps ht
  have hceil := tdiv_ceil_eq total pageSize hps ht
  unfold utils.CalculatePagination
  dsimp only
  refine ⟨rfl, rfl, rfl, hceil, ?_, ?_, ?_⟩
  · constructor
    · intro h0
      rw [h0] at hbounds
      have hb1 := hbounds.1
      have hb2 := hbounds.2
      nlinarith
    · intro h0
      rw [h0] at hbounds ⊢
      have hb1 := hbounds.1
      have hb2 := hbounds.2
      nlinarith
  · exact decide_eq_true_iff
  · exact decide_eq_true_iff

/-- Claim C4: extraction yields the defaults `(1, 10)` when the respective
query parameter is absent/empty (gin renders both as `""`), non-numeric
(`Atoi` error), zero or negative; a parameter parsing to a positive integer
is used verbatim.  `GetSearchParams` behaves identically on `page`/`pageSize`
and passes `q` through raw; extraction is total, so malformed input never
produces an error at this stage. -/
theorem extraction_defaults_spec (req : QueryParams) :
    ((req.page = "" ∨ strconv.Atoi req.page = none ∨
        (∃ v, strconv.Atoi req.page = some v ∧ v ≤ 0)) →
      (utils.GetPaginationParams req).Page = 1) ∧
    ((req.pageSize = "" ∨ strconv.Atoi req.pageSize = none ∨
        (∃ v, strconv.Atoi req.pageSize = some v ∧ v ≤ 0)) →
      (utils.GetPaginationParams req).PageSize = 10) ∧
    (∀ v, strconv.Atoi req.page = some v → 0 < v →
      (utils.GetPaginationParams req).Page = v) ∧
    (∀ v, strconv.Atoi req.pageSize = some v → 0 < v →
      (utils.GetPaginationParams req).PageSize = v) ∧
    (utils.GetSearchParams req).Page = (utils.GetPaginationParams req).Page ∧
    (utils.GetSearchParams req).PageSize =
      (utils.GetPaginationParams req).PageSize ∧
    (utils.GetSearchParams req).Query = req.q := by
  rw [GetPaginationParams_eq, GetSearchParams_eq]
  refine ⟨?_, ?_, ?_, ?_, rfl, rfl, rfl⟩
  · intro h
    exact positiveOr_default _ _ h
  · intro h
    exact positiveOr_default _ _ h
  · intro v hv hv0
    exact positiveOr_verbatim _ _ _ hv hv0
  · intro v hv hv0
    exact positiveOr_verbatim _ _ _ hv hv0

/-- Witness for `extraction_defaults_spec` at the request
`?page=abc&page_size=5&q=x`: the non-numeric `page` falls back to 1, the
positive `page_size` is used verbatim, and the search variant agrees. -/
theorem extraction_defaults_spec_witness :
    (utils.GetPaginationParams ⟨"abc", "5", "x"⟩).Page = 1 ∧
    (utils.GetPaginationParams ⟨"abc", "5", "x"⟩).PageSize = 5 ∧
    (utils.GetSearchParams ⟨"abc", "5", "x"⟩).Query = "x" :=
  ⟨(extraction_defaults_spec ⟨"abc", "5", "x"⟩).1
      (Or.inr (Or.inl (by decide))),
   (extraction_defaults_spec ⟨"abc", "5", "x"⟩).2.2.2.1 5 (by decide)
      (by norm_num),
   (extraction_defaults_spec ⟨"abc", "5", "x"⟩).2.2.2.2.2.2⟩

/-- Witness for `CalculatePagination_spec` at `page = 2`, `pageSize = 10`,
`total = 25`. -/
theorem CalculatePagination_spec_witness :
    (1 : Int) ≤ 2 ∧ (1 : Int) ≤ 10 ∧ (0 : Int) ≤ 25 ∧
    ((utils.CalculatePagination 2 10 25).Page = 2 ∧
     (utils.CalculatePagination 2 10 25).PageSize = 10 ∧
     (utils.CalculatePagination 2 10 25).Total = 25 ∧
     (utils.CalculatePagination 2 10 25).TotalPages =
       ⌈(25 : ℚ) / (10 : ℚ)⌉ ∧
     ((utils.CalculatePagination 2 10 25).TotalPages = 0 ↔ (25 : Int) = 0) ∧
     ((utils.CalculatePagination 2 10 25).HasNext = true ↔
       2 < (utils.CalculatePagination 2 10 25).TotalPages) ∧
     ((utils.CalculatePagination 2 10 25).HasPrev = true ↔ (2 : Int) > 1)) :=
  ⟨by norm_num, by norm_num, by norm_num,
    CalculatePagination_spec 2 10 25 (by norm_num) (by norm_num) (by norm_num)⟩

/-! ## Handler branch structure -/

theorem CalculatePagination_Page (a b c : Int) :
    (utils.CalculatePagination a b c).Page = a := rfl

theorem CalculatePagination_PageSize (a b c : Int) :
    (utils.CalculatePagination a b c).PageSize = b := rfl

theorem CalculatePagination_Total (a b c : Int) :
    (utils.CalculatePagination a b c).Total = c := rfl

theorem GetPaginationParams_Page_pos (req : QueryParams) :
    1 ≤ (utils.GetPaginationParams req).Page := by
  rw [GetPaginationParams_eq]
  exact positiveOr_pos _ _ (by norm_num)

theorem GetPaginationParams_PageSize_pos (req : QueryParams) :
    1 ≤ (utils.GetPaginationParams req).PageSize := by
  rw [GetPaginationParams_eq]
  exact positiveOr_pos _ _ (by norm_num)

theorem GetSearchParams_Page_pos (req : QueryParams) :
    1 ≤ (utils.GetSearchParams req).Page := by
  rw [GetSearchParams_eq]
  exact positiveOr_pos _ _ (by norm_num)

theorem GetSearchParams_PageSize_pos (req : QueryParams) :
    1 ≤ (utils.GetSearchParams req).PageSize := by
  rw [GetSearchParams_eq]
  exact positiveOr_pos _ _ (by norm_num)

/-- With the extracted `pageSize` within the cap, `GetServices` takes its
success branch. -/
theorem GetServices_ok_shape (req : QueryParams) (db : DBState)
    (hle : (utils.GetPaginationParams req).PageSize ≤ 100) :
    handlers.GetServices req db = ServiceListResponse.ok
      (database.GetServices (utils.GetPaginationParams req) db).1
      (utils.CalculatePagination (utils.GetPaginationParams req).Page
        (utils.GetPaginationParams req).PageSize
        (database.GetServices (utils.GetPaginationParams req) db).2) := by
  have h1 := GetPaginationParams_Page_pos req
  have h2 := GetPaginationParams_PageSize_pos req
  simp only [handlers.GetServices]
  rw [if_neg (by omega), if_neg (by omega)]

/-- With the extracted `pageSize` over the cap, `GetServices` rejects. -/
theorem GetServices_reject_oversize (req : QueryParams) (db : DBState)
    (h : 100 < (utils.GetPaginationParams req).PageSize) :
    handlers.GetServices req db =
      ServiceListResponse.badRequest "page_size must be between 1 and 100" := by
  have h1 := GetPaginationParams_Page_pos req
  simp only [handlers.GetServices]
  rw [if_neg (by omega), if_pos (by omega)]

/-- With the extracted `pageSize` within the cap, `GetVersions` takes its
success branch. -/
theorem GetVersions_ok_shape (sid : String) (req : QueryParams)
    (db : DBState) (hle : (utils.GetPaginationParams req).PageSize ≤ 100) :
    handlers.GetVersions sid req db = VersionListResponse.ok
      (database.GetVersions sid (utils.GetPaginationParams req) db).1
      (utils.CalculatePagination (utils.GetPaginationParams req).Page
        (utils.GetPaginationParams req).PageSize
        (database.GetVersions sid (utils.GetPaginationParams req) db).2) := by
  have h1 := GetPaginationParams_Page_pos req
  have h2 := GetPaginationParams_PageSize_pos req
  simp only [handlers.GetVersions]
  rw [if_neg (by omega), if_neg (by omega)]

/-- With the extracted `pageSize` over the cap, `GetVersions` rejects. -/
theorem GetVersions_reject_oversize (sid : String) (req : QueryParams)
    (db : DBState) (h : 100 < (utils.GetPaginationParams req).PageSize) :
    handlers.GetVersions sid req db =
      VersionListResponse.badRequest "page_size must be between 1 and 100" := by
  have h1 := GetPaginationParams_Page_pos req
  simp only [handlers.GetVersions]
  rw [if_neg (by omega), if_pos (by omega)]

/-- With a non-empty query and `pageSize` within the cap, `SearchServices`
takes its success branch. -/
theorem SearchServices_ok_shape (engine : SearchEngine) (req : QueryParams)
    (db : DBState) (hq : req.q ≠ "")
    (hle : (utils.GetSearchParams req).PageSize ≤ 100) :
    handlers.SearchServices engine req db = ServiceListResponse.ok
      (database.SearchServices engine (utils.GetSearchParams req) db).1
      (utils.CalculatePagination (utils.GetSearchParams req).Page
        (utils.GetSearchParams req).PageSize
        (database.SearchServices engine (utils.GetSearchParams req) db).2) := by
  have h1 := GetSearchParams_Page_pos req
  have h2 := GetSearchParams_PageSize_pos req
  have hquery : (utils.GetSearchParams req).Query = req.q := by
    rw [GetSearchParams_eq]
  simp only [handlers.SearchServices]
  rw [if_neg (by rw [hquery]; exact hq), if_neg (by omega), if_neg (by omega)]

/-- Lemma: `SearchServices` responds 400 whenever the extracted `pageSize` exceeds
the cap (from the `q` check when the query is empty, from the range check
otherwise). -/
theorem SearchServices_reject_oversize (engine : SearchEngine)
    (req : QueryParams) (db : DBState)
    (h : 100 < (utils.GetSearchParams req).PageSize) :
    (handlers.SearchServices engine req db).isBadRequest = true := by
  have h1 := GetSearchParams_Page_pos req
  simp only [handlers.SearchServices]
  by_cases hq : (utils.GetSearchParams req).Query = ""
  · rw [if_pos hq]
    rfl
  · rw [if_neg hq, if_neg (by omega), if_pos (by omega)]
    rfl

/-- With a non-empty query but `pageSize` over the cap, `SearchServices`
rejects with the range message. -/
theorem SearchServices_reject_oversize_msg (engine : SearchEngine)
    (req : QueryParams) (db : DBState) (hq : req.q ≠ "")
    (h : 100 < (utils.GetSearchParams req).PageSize) :
    handlers.SearchServices engine req db =
      ServiceListResponse.badRequest "page_size must be between 1 and 100" := by
  have h1 := GetSearchParams_Page_pos req
  have hquery : (utils.GetSearchParams req).Query = req.q := by
    rw [GetSearchParams_eq]
  simp only [handlers.SearchServices]
  rw [if_neg (by rw [hquery]; exact hq), if_neg (by omega), if_pos (by omega)]

/-- Lemma: `SearchServices` rejects an empty (or absent) query before anything
else. -/
theorem SearchServices_reject_emptyq (engine : SearchEngine)
    (req : QueryParams) (db : DBState) (hq : req.q = "") :
    handlers.SearchServices engine req db =
      ServiceListResponse.badRequest "search query is required" := by
  have hquery : (utils.GetSearchParams req).Query = req.q := by
    rw [GetSearchParams_eq]
  simp only [handlers.SearchServices]
  rw [if_pos (by rw [hquery, hq])]

/-- Claim C3 counterexample: a request with `page_size=0` to the services
list endpoint is not rejected — against an empty store the handler responds
200 with the default page size 10, not 400 as the claim states. -/
theorem pageSize_zero_not_rejected :
    (handlers.GetServices ⟨"", "0", ""⟩
        ⟨[], [], "2024-01-01 00:00:00"⟩).isBadRequest = false ∧
    handlers.GetServices ⟨"", "0", ""⟩ ⟨[], [], "2024-01-01 00:00:00"⟩ =
      ServiceListResponse.ok [] ⟨1, 10, 0, 0, false, false⟩ := by
  decide

/-- Claim C3 (amended): `page_size=101` yields 400 on every list endpoint
(list services, list versions, search); `page_size=0`, however, fails the
positivity guard in extraction and is silently replaced by the default page
size 10 — the request is *not* rejected (it reaches the success branch,
subject only to the search endpoint's non-empty-`q` requirement). -/
theorem pageSize_range_validation (pageStr qStr sid : String)
    (engine : SearchEngine) (db : DBState) :
    handlers.GetServices ⟨pageStr, "101", qStr⟩ db =
      ServiceListResponse.badRequest "page_size must be between 1 and 100" ∧
    handlers.GetVersions sid ⟨pageStr, "101", qStr⟩ db =
      VersionListResponse.badRequest "page_size must be between 1 and 100" ∧
    (handlers.SearchServices engine ⟨pageStr, "101", qStr⟩ db).isBadRequest
        = true ∧
    handlers.GetServices ⟨pageStr, "0", qStr⟩ db =
      handlers.GetServices ⟨pageStr, "", qStr⟩ db ∧
    (handlers.GetServices ⟨pageStr, "0", qStr⟩ db).isBadRequest = false ∧
    handlers.GetVersions sid ⟨pageStr, "0", qStr⟩ db =
      handlers.GetVersions sid ⟨pageStr, "", qStr⟩ db ∧
    (handlers.GetVersions sid ⟨pageStr, "0", qStr⟩ db).isBadRequest = false ∧
    (qStr ≠ "" →
      (handlers.SearchServices engine ⟨pageStr, "0", qStr⟩ db).isBadRequest
        = false) := by
  have h101 : ∀ s : String,
      (utils.GetPaginationParams ⟨s, "101", qStr⟩).PageSize = 101 := by
    intro s
    rw [GetPaginationParams_eq]
    exact positiveOr_verbatim "101" 10 101 (by decide) (by norm_num)
  have hS101 : (utils.GetSearchParams ⟨pageStr, "101", qStr⟩).PageSize = 101 := by
    rw [GetSearchParams_eq]
    exact positiveOr_verbatim "101" 10 101 (by decide) (by norm_num)
  have h0 : positiveOr "0" 10 = 10 :=
    positiveOr_default _ _ (Or.inr (Or.inr ⟨0, by decide, le_rfl⟩))
  have hparams : utils.GetPaginationParams ⟨pageStr, "0", qStr⟩ =
      utils.GetPaginationParams ⟨pageStr, "", qStr⟩ := by
    rw [GetPaginationParams_eq, GetPaginationParams_eq]
    simp only [h0]
    rfl
  have hSparams : utils.GetSearchParams ⟨pageStr, "0", qStr⟩ =
      utils.GetSearchParams ⟨pageStr, "", qStr⟩ := by
    rw [GetSearchParams_eq, GetSearchParams_eq]
    simp only [h0]
    rfl
  have h0ps : (utils.GetPaginationParams ⟨pageStr, "0", qStr⟩).PageSize = 10 := by
    rw [GetPaginationParams_eq]
    exact h0
  have hS0ps : (utils.GetSearchParams ⟨pageStr, "0", qStr⟩).PageSize = 10 := by
    rw [GetSearchParams_eq]
    exact h0
  refine ⟨?_, ?_, ?_, ?_, ?_, ?_, ?_, ?_⟩
  · exact GetServices_reject_oversize _ _ (by rw [h101]; norm_num)
  · exact GetVersions_reject_oversize _ _ _ (by rw [h101]; norm_num)
  · exact SearchServices_reject_oversize _ _ _ (by rw [hS101]; norm_num)
  · simp only [handlers.GetServices]
    rw [hparams]
  · rw [GetServices_ok_shape _ _ (by rw [h0ps]; norm_num)]
    rfl
  · simp only [handlers.GetVersions]
    rw [hparams]
  · rw [GetVersions_ok_shape _ _ _ (by rw [h0ps]; norm_num)]
    rfl
  · intro hq
    rw [SearchServices_ok_shape _ _ _ hq (by rw [hS0ps]; norm_num)]
    rfl

/-- Witness for `pageSize_range_validation` at concrete inputs: `?page_size=101`
is rejected on the services list while `?page_size=0` is not. -/
theorem pageSize_range_validation_witness :
    handlers.GetServices ⟨"", "101", "x"⟩ ⟨[], [], "t"⟩ =
      ServiceListResponse.badRequest "page_size must be between 1 and 100" ∧
    (handlers.SearchServices ⟨fun _ _ => false, fun _ _ => 0⟩ ⟨"", "0", "x"⟩
        ⟨[], [], "t"⟩).isBadRequest = false :=
  ⟨(pageSize_range_validation "" "x" "s" ⟨fun _ _ => false, fun _ _ => 0⟩
      ⟨[], [], "t"⟩).1,
   (pageSize_range_validation "" "x" "s" ⟨fun _ _ => false, fun _ _ => 0⟩
      ⟨[], [], "t"⟩).2.2.2.2.2.2.2 (by decide)⟩

/-- Claim C5: extraction always returns `page ≥ 1` and `pageSize ≥ 1`, so on
every path of the three list/search handlers that reaches
`CalculatePagination`, `page ≥ 1` and `1 ≤ pageSize ≤ 100` hold there (the
pagination envelope echoes the call's arguments) — in particular the
divisor `pageSize` is nonzero — and the handlers' rejection branch for
`page < 1` (distinguished by its message) is unreachable, as is the
`pageSize < 1` half of the range check. -/
theorem calculatePagination_callsite_bounds (req : QueryParams)
    (sid : String) (engine : SearchEngine) (db : DBState) :
    1 ≤ (utils.GetPaginationParams req).Page ∧
    1 ≤ (utils.GetPaginationParams req).PageSize ∧
    1 ≤ (utils.GetSearchParams req).Page ∧
    1 ≤ (utils.GetSearchParams req).PageSize ∧
    (∀ data pg, handlers.GetServices req db = ServiceListResponse.ok data pg →
      1 ≤ pg.Page ∧ 1 ≤ pg.PageSize ∧ pg.PageSize ≤ 100 ∧ pg.PageSize ≠ 0) ∧
    (∀ data pg,
      handlers.SearchServices engine req db = ServiceListResponse.ok data pg →
      1 ≤ pg.Page ∧ 1 ≤ pg.PageSize ∧ pg.PageSize ≤ 100 ∧ pg.PageSize ≠ 0) ∧
    (∀ data pg,
      handlers.GetVersions sid req db = VersionListResponse.ok data pg →
      1 ≤ pg.Page ∧ 1 ≤ pg.PageSize ∧ pg.PageSize ≤ 100 ∧ pg.PageSize ≠ 0) ∧
    handlers.GetServices req db ≠
      ServiceListResponse.badRequest "page must be greater than 0" ∧
    handlers.SearchServices engine req db ≠
      ServiceListResponse.badRequest "page must be greater than 0" ∧
    handlers.GetVersions sid req db ≠
      VersionListResponse.badRequest "page must be greater than 0" := by
  have h1 := GetPaginationParams_Page_pos req
  have h2 := GetPaginationParams_PageSize_pos req
  have h3 := GetSearchParams_Page_pos req
  have h4 := GetSearchParams_PageSize_pos req
  refine ⟨h1, h2, h3, h4, ?_, ?_, ?_, ?_, ?_, ?_⟩
  · intro data pg h
    by_cases hle : (utils.GetPaginationParams req).PageSize ≤ 100
    · rw [GetServices_ok_shape req db hle] at h
      simp only [ServiceListResponse.ok.injEq] at h
      rw [← h.2, CalculatePagination_Page, CalculatePagination_PageSize]
      omega
    · rw [GetServices_reject_oversize req db (by omega)] at h
      exact ServiceListResponse.noConfusion h
  · intro data pg h
    by_cases hq : req.q = ""
    · rw [SearchServices_reject_emptyq engine req db hq] at h
      exact ServiceListResponse.noConfusion h
    by_cases hle : (utils.GetSearchParams req).PageSize ≤ 100
    · rw [SearchServices_ok_shape engine req db hq hle] at h
      simp only [ServiceListResponse.ok.injEq] at h
      rw [← h.2, CalculatePagination_Page, CalculatePagination_PageSize]
      omega
    · have := SearchServices_reject_oversize engine req db (by omega)
      rw [h] at this
      exact Bool.noConfusion this
  · intro data pg h
    by_cases hle : (utils.GetPaginationParams req).PageSize ≤ 100
    · rw [GetVersions_ok_shape sid req db hle] at h
      simp only [VersionListResponse.ok.injEq] at h
      rw [← h.2, CalculatePagination_Page, CalculatePagination_PageSize]
      omega
    · rw [GetVersions_reject_oversize sid req db (by omega)] at h
      exact VersionListResponse.noConfusion h
  · by_cases hle : (utils.GetPaginationParams req).PageSize ≤ 100
    · rw [GetServices_ok_shape req db hle]
      simp
    · rw [GetServices_reject_oversize req db (by omega)]
      simp
  · by_cases hq : req.q = ""
    · rw [SearchServices_reject_emptyq engine req db hq]
      simp
    by_cases hle : (utils.GetSearchParams req).PageSize ≤ 100
    · rw [SearchServices_ok_shape engine req db hq hle]
      simp
    · rw [SearchServices_reject_oversize_msg engine req db hq (by omega)]
      simp
  · by_cases hle : (utils.GetPaginationParams req).PageSize ≤ 100
    · rw [GetVersions_ok_shape sid req db hle]
      simp
    · rw [GetVersions_reject_oversize sid req db (by omega)]
      simp

/-- Witness for `calculatePagination_callsite_bounds` at the request
`?page=2&page_size=50&q=x` against an empty store: the success branch is
taken and the echoed bounds hold. -/
theorem calculatePagination_callsite_bounds_witness :
    1 ≤ (utils.GetPaginationParams ⟨"2", "50", "x"⟩).Page ∧
    (1 ≤ (⟨2, 50, 0, 0, false, true⟩ : Pagination).Page ∧
     1 ≤ (⟨2, 50, 0, 0, false, true⟩ : Pagination).PageSize ∧
     (⟨2, 50, 0, 0, false, true⟩ : Pagination).PageSize ≤ 100 ∧
     (⟨2, 50, 0, 0, false, true⟩ : Pagination).PageSize ≠ 0) :=
  ⟨(calculatePagination_callsite_bounds ⟨"2", "50", "x"⟩ "s"
      ⟨fun _ _ => false, fun _ _ => 0⟩ ⟨[], [], "t"⟩).1,
   (calculatePagination_callsite_bounds ⟨"2", "50", "x"⟩ "s"
      ⟨fun _ _ => false, fun _ _ => 0⟩ ⟨[], [], "t"⟩).2.2.2.2.1
     [] ⟨2, 50, 0, 0, false, true⟩ (by decide)⟩

/-- When no stored service is a full-text hit for the query, the search
accessor returns the empty page and a zero total. -/
theorem SearchServicesDB_no_hits (engine : SearchEngine)
    (params : SearchParams) (db : DBState)
    (hno : ∀ s ∈ db.services, engine.isHit s params.Query = false) :
    database.SearchServices engine params db = ([], 0) := by
  have hfilter :
      db.services.filter (fun s => engine.isHit s params.Query) = [] := by
    rw [List.filter_eq_nil_iff]
    intro a ha
    simp [hno a ha]
  simp only [database.SearchServices, hfilter]
  simp [sortBy, List.drop_nil, List.take_nil]

/-- Claim C7: a search request with empty/absent `q` is rejected with 400
before the store is consulted (the response does not depend on the store
state); a valid request whose query matches no stored service yields 200
with an empty data array and `total = 0`. -/
theorem search_emptyq_and_no_match (engine : SearchEngine)
    (req : QueryParams) (db : DBState) :
    (req.q = "" →
      handlers.SearchServices engine req db =
        ServiceListResponse.badRequest "search query is required" ∧
      (∀ db2, handlers.SearchServices engine req db =
        handlers.SearchServices engine req db2)) ∧
    (req.q ≠ "" →
      (∀ s ∈ db.services, engine.isHit s req.q = false) →
      (utils.GetSearchParams req).PageSize ≤ 100 →
      handlers.SearchServices engine req db =
        ServiceListResponse.ok []
          (utils.CalculatePagination (utils.GetSearchParams req).Page
            (utils.GetSearchParams req).PageSize 0) ∧
      (utils.CalculatePagination (utils.GetSearchParams req).Page
        (utils.GetSearchParams req).PageSize 0).Total = 0) := by
  constructor
  · intro hq
    refine ⟨SearchServices_reject_emptyq engine req db hq, ?_⟩
    intro db2
    rw [SearchServices_reject_emptyq engine req db hq,
      SearchServices_reject_emptyq engine req db2 hq]
  · intro hq hno hle
    have hquery : (utils.GetSearchParams req).Query = req.q := by
      rw [GetSearchParams_eq]
    have hdb : database.SearchServices engine (utils.GetSearchParams req) db =
        ([], 0) := by
      apply SearchServicesDB_no_hits
      intro s hs
      rw [hquery]
      exact hno s hs
    rw [SearchServices_ok_shape engine req db hq hle, hdb]
    exact ⟨rfl, rfl⟩

/-- Witness for `search_emptyq_and_no_match`: an empty `q` is rejected, and
a non-matching `q` against a one-service store yields the empty page with
zero total. -/
theorem search_emptyq_and_no_match_witness :
    handlers.SearchServices ⟨fun _ _ => false, fun _ _ => 0⟩ ⟨"", "", ""⟩
      ⟨[], [], "t"⟩ =
      ServiceListResponse.badRequest "search query is required" ∧
    handlers.SearchServices ⟨fun _ _ => false, fun _ _ => 0⟩
      ⟨"", "", "hello"⟩ ⟨[⟨"s1", "n", "sl", "d", "t1", "t1", 0⟩], [], "t"⟩ =
      ServiceListResponse.ok []
        (utils.CalculatePagination 1 10 0) :=
  ⟨((search_emptyq_and_no_match ⟨fun _ _ => false, fun _ _ => 0⟩ ⟨"", "", ""⟩
      ⟨[], [], "t"⟩).1 rfl).1,
   ((search_emptyq_and_no_match ⟨fun _ _ => false, fun _ _ => 0⟩
      ⟨"", "", "hello"⟩ ⟨[⟨"s1", "n", "sl", "d", "t1", "t1", 0⟩], [], "t"⟩).2
      (by decide) (by intro s hs; rfl) (by decide)).1⟩

/-! ## The version-creation transaction -/

/-- Zipping a list with its own image pairs each element with its image. -/
theorem zip_map_self {α β : Type} (f : α → β) (l : List α) :
    l.zip (l.map f) = l.map (fun x => (x, f x)) := by
  induction l with
  | nil => rfl
  | cons x xs ih => simp [ih]

/-- Claim C1: the two writes of `database.CreateVersion` are atomic.  The
transaction commits exactly when no step faults; on commit the visible
state carries both writes together — the version row is appended *and* the
owning service's `versions_count` is incremented by exactly 1 (rows of other
services are untouched) — and on any fault of the insert, the update or the
commit, the rollback leaves the visible state exactly the pre-state, so no
mixed state is ever observable. -/
theorem createVersion_transaction_atomic (fault : database.TxFault)
    (version : Version) (db : DBState) :
    ((database.CreateVersion fault version db).isOk = true ↔
      fault = database.TxFault.noFault) ∧
    (fault = database.TxFault.noFault →
      (database.visibleAfterCreateVersion fault version db).versions =
        db.versions ++ [database.insertedVersionRow version db.now] ∧
      (database.visibleAfterCreateVersion fault version db).services.length =
        db.services.length ∧
      ∀ p ∈ db.services.zip
          (database.visibleAfterCreateVersion fault version db).services,
        p.2.ID = p.1.ID ∧
        p.2.VersionsCount = p.1.VersionsCount +
          (if p.1.ID = version.ServiceID then 1 else 0)) ∧
    (fault ≠ database.TxFault.noFault →
      database.visibleAfterCreateVersion fault version db = db) := by
  cases fault with
  | noFault =>
    refine ⟨by simp [database.CreateVersion, Except.isOk, Except.toBool], ?_, by simp⟩
    intro _
    have hvis : database.visibleAfterCreateVersion database.TxFault.noFault
        version db =
        { db with
            versions := db.versions ++
              [database.insertedVersionRow version db.now]
            services := db.services.map (fun s =>
              if s.ID == version.ServiceID then
                { s with VersionsCount := s.VersionsCount + 1,
                         UpdatedAt := db.now }
              else s) } := by
      simp [database.visibleAfterCreateVersion, database.CreateVersion,
        database.bumpVersionsCount]
    rw [hvis]
    refine ⟨rfl, by simp, ?_⟩
    intro p hp
    rw [show ({ db with
          versions := db.versions ++
            [database.insertedVersionRow version db.now]
          services := db.services.map (fun s =>
            if s.ID == version.ServiceID then
              { s with VersionsCount := s.VersionsCount + 1,
                       UpdatedAt := db.now }
            else s) } : DBState).services = db.services.map (fun s =>
            if s.ID == version.ServiceID then
              { s with VersionsCount := s.VersionsCount + 1,
                       UpdatedAt := db.now }
            else s) from rfl, zip_map_self] at hp
    rcases List.mem_map.mp hp with ⟨s, _hs, rfl⟩
    by_cases hid : s.ID = version.ServiceID
    · simp [hid]
    · simp [hid, beq_eq_false_iff_ne.mpr hid]
  | insertFails =>
    refine ⟨by simp [database.CreateVersion, Except.isOk, Except.toBool],
      by simp, ?_⟩
    intro _
    simp [database.visibleAfterCreateVersion, database.CreateVersion]
  | updateFails =>
    refine ⟨by simp [database.CreateVersion, Except.isOk, Except.toBool],
      by simp, ?_⟩
    intro _
    simp [database.visibleAfterCreateVersion, database.CreateVersion]
  | commitFails =>
    refine ⟨by simp [database.CreateVersion, Except.isOk, Except.toBool],
      by simp, ?_⟩
    intro _
    simp [database.visibleAfterCreateVersion, database.CreateVersion]

/-- Witness for `createVersion_transaction_atomic`: a fault-free run against
a one-service store commits both writes; a run whose `UPDATE` step fails
leaves the store untouched. -/
theorem createVersion_transaction_atomic_witness :
    (database.CreateVersion database.TxFault.noFault
        ⟨"v1", "s1", "1.0.0", "draft", "c", ""⟩
        ⟨[⟨"s1", "n", "sl", "d", "t1", "t1", 0⟩], [], "t2"⟩).isOk = true ∧
    (database.visibleAfterCreateVersion database.TxFault.noFault
        ⟨"v1", "s1", "1.0.0", "draft", "c", ""⟩
        ⟨[⟨"s1", "n", "sl", "d", "t1", "t1", 0⟩], [], "t2"⟩).versions =
      [⟨"v1", "s1", "1.0.0", "draft", "c", "t2"⟩] ∧
    database.visibleAfterCreateVersion database.TxFault.updateFails
        ⟨"v1", "s1", "1.0.0", "draft", "c", ""⟩
        ⟨[⟨"s1", "n", "sl", "d", "t1", "t1", 0⟩], [], "t2"⟩ =
      ⟨[⟨"s1", "n", "sl", "d", "t1", "t1", 0⟩], [], "t2"⟩ :=
  ⟨(createVersion_transaction_atomic database.TxFault.noFault
      ⟨"v1", "s1", "1.0.0", "draft", "c", ""⟩
      ⟨[⟨"s1", "n", "sl", "d", "t1", "t1", 0⟩], [], "t2"⟩).1.mpr rfl,
   ((createVersion_transaction_atomic database.TxFault.noFault
      ⟨"v1", "s1", "1.0.0", "draft", "c", ""⟩
      ⟨[⟨"s1", "n", "sl", "d", "t1", "t1", 0⟩], [], "t2"⟩).2.1 rfl).1,
   (createVersion_transaction_atomic database.TxFault.updateFails
      ⟨"v1", "s1", "1.0.0", "draft", "c", ""⟩
      ⟨[⟨"s1", "n", "sl", "d", "t1", "t1", 0⟩], [], "t2"⟩).2.2 (by decide)⟩

/-- Claim C6: creating a version for a service id that matches no stored
service is not rejected.  Neither the handler nor the accessor checks that
the referenced service exists; the `versions_count` `UPDATE` matches zero
rows, which is not treated as an error; and absent any storage-layer
failure the endpoint responds 201 with the created version, having appended
the version row and left every service row unchanged. -/
theorem createVersion_nonexistent_service (serviceID newID : String)
    (body : Version) (db : DBState)
    (hno : ∀ s ∈ db.services, s.ID ≠ serviceID) :
    (database.bumpVersionsCount serviceID
        { db with versions := db.versions ++
            [database.insertedVersionRow
              { body with ID := newID, ServiceID := serviceID } db.now] }).2
        = 0 ∧
    (handlers.CreateVersion database.TxFault.noFault serviceID newID body
        db).1 =
      VersionResponse.created
        { body with ID := newID, ServiceID := serviceID } ∧
    (handlers.CreateVersion database.TxFault.noFault serviceID newID body
        db).2.versions =
      db.versions ++ [database.insertedVersionRow
        { body with ID := newID, ServiceID := serviceID } db.now] ∧
    (handlers.CreateVersion database.TxFault.noFault serviceID newID body
        db).2.services = db.services := by
  have hfilter : db.services.filter (fun s => s.ID == serviceID) = [] := by
    rw [List.filter_eq_nil_iff]
    intro a ha
    simp [hno a ha]
  have hmap : db.services.map (fun s =>
      if s.ID = serviceID then
        { s with VersionsCount := s.VersionsCount + 1, UpdatedAt := db.now }
      else s) = db.services := by
    have hcongr := List.map_congr_left (l := db.services)
      (f := fun s =>
        if s.ID = serviceID then
          { s with VersionsCount := s.VersionsCount + 1,
                   UpdatedAt := db.now }
        else s)
      (g := id)
      (by
        intro a ha
        simp [hno a ha])
    rw [hcongr, List.map_id]
  refine ⟨?_, ?_, ?_, ?_⟩
  · simp only [database.bumpVersionsCount]
    simp [hfilter]
  · simp [handlers.CreateVersion, database.CreateVersion]
  · simp [handlers.CreateVersion, database.CreateVersion,
      database.bumpVersionsCount]
  · simp only [handlers.CreateVersion, database.CreateVersion,
      database.bumpVersionsCount]
    simp [hmap]

/-- Witness for `createVersion_nonexistent_service`: creating a version for
the absent service id `"nope"` against a one-service store affects zero
service rows and still responds 201. -/
theorem createVersion_nonexistent_service_witness :
    (handlers.CreateVersion database.TxFault.noFault "nope" "v1"
        ⟨"", "", "1.0.0", "draft", "c", ""⟩
        ⟨[⟨"s1", "n", "sl", "d", "t1", "t1", 0⟩], [], "t2"⟩).1 =
      VersionResponse.created ⟨"v1", "nope", "1.0.0", "draft", "c", ""⟩ ∧
    (handlers.CreateVersion database.TxFault.noFault "nope" "v1"
        ⟨"", "", "1.0.0", "draft", "c", ""⟩
        ⟨[⟨"s1", "n", "sl", "d", "t1", "t1", 0⟩], [], "t2"⟩).2.services =
      [⟨"s1", "n", "sl", "d", "t1", "t1", 0⟩] :=
  ⟨(createVersion_nonexistent_service "nope" "v1"
      ⟨"", "", "1.0.0", "draft", "c", ""⟩
      ⟨[⟨"s1", "n", "sl", "d", "t1", "t1", 0⟩], [], "t2"⟩
      (by decide)).2.1,
   (createVersion_nonexistent_service "nope" "v1"
      ⟨"", "", "1.0.0", "draft", "c", ""⟩
      ⟨[⟨"s1", "n", "sl", "d", "t1", "t1", 0⟩], [], "t2"⟩
      (by decide)).2.2.2⟩

/-! ## Service create/fetch round-trip -/

/-- Lemma: `find?` skips a prefix in which nothing satisfies the predicate. -/
theorem find?_append_none {α : Type} {p : α → Bool} {l1 l2 : List α}
    (h : l1.find? p = none) : (l1 ++ l2).find? p = l2.find? p := by
  induction l1 with
  | nil => rfl
  | cons x xs ih =>
    rw [List.find?_cons] at h
    cases hx : p x with
    | true => rw [hx] at h; exact Option.noConfusion h
    | false =>
      rw [hx] at h
      simp only [List.cons_append, List.find?_cons, hx]
      exact ih h

/-- Claim C8 counterexample: the creation response echoes the bound request
body, including a client-supplied `versions_count`; the insert stores only
name/slug/description with the column default 0, so a body carrying
`versions_count = 5` makes the fetched entity differ from the creation
response on that field. -/
theorem created_versus_fetched_count_cx :
    (handlers.CreateService "id9" ⟨"bodyid", "nm", "sg", "ds", "", "", 5⟩
        ⟨[], [], "t"⟩).1 =
      ServiceResponse.created ⟨"id9", "nm", "sg", "ds", "", "", 5⟩ ∧
    handlers.GetService "id9"
        (handlers.CreateService "id9" ⟨"bodyid", "nm", "sg", "ds", "", "", 5⟩
          ⟨[], [], "t"⟩).2 =
      ServiceResponse.okEntity ⟨"id9", "nm", "sg", "ds", "t", "t", 0⟩ := by
  decide

/-- Claim C8 (amended): for a service created via the create endpoint,
fetching it by the returned id yields the creation response's name, slug
and description unchanged, with server-assigned id and timestamps present
and non-empty (the generated uuid and storage clock being non-empty); the
fetched `versions_count` is the column default 0 — equal to the creation
response's value only when the request body carried 0, since the 201
response echoes the bound body while the insert ignores its
`versions_count`, timestamps and id. -/
theorem create_fetch_roundtrip (newID : String) (body : Service)
    (db : DBState) (hfresh : ∀ s ∈ db.services, s.ID ≠ newID)
    (hid : newID ≠ "") (hnow : db.now ≠ "") :
    (handlers.CreateService newID body db).1 =
      ServiceResponse.created { body with ID := newID } ∧
    handlers.GetService newID (handlers.CreateService newID body db).2 =
      ServiceResponse.okEntity
        ⟨newID, body.Name, body.Slug, body.Description, db.now, db.now, 0⟩ ∧
    (∀ s, handlers.GetService newID
        (handlers.CreateService newID body db).2 =
        ServiceResponse.okEntity s →
      s.Name = body.Name ∧ s.Slug = body.Slug ∧
      s.Description = body.Description ∧ s.VersionsCount = 0 ∧
      s.ID ≠ "" ∧ s.CreatedAt ≠ "" ∧ s.UpdatedAt ≠ "") := by
  have hnone : db.services.find? (fun s => s.ID == newID) = none := by
    rw [List.find?_eq_none]
    intro x hx
    simp [hfresh x hx]
  have hfetch : handlers.GetService newID
      (handlers.CreateService newID body db).2 =
      ServiceResponse.okEntity
        ⟨newID, body.Name, body.Slug, body.Description, db.now, db.now, 0⟩ := by
    simp only [handlers.GetService, database.GetServiceByID,
      handlers.CreateService, database.CreateService]
    rw [find?_append_none hnone]
    simp [List.find?]
  refine ⟨rfl, hfetch, ?_⟩
  intro s hs
  rw [hfetch] at hs
  cases hs
  exact ⟨rfl, rfl, rfl, rfl, hid, hnow, hnow⟩

/-- Witness for `create_fetch_roundtrip` at a concrete create request
against an empty store. -/
theorem create_fetch_roundtrip_witness :
    (handlers.CreateService "id9" ⟨"", "nm", "sg", "ds", "", "", 0⟩
        ⟨[], [], "t"⟩).1 =
      ServiceResponse.created ⟨"id9", "nm", "sg", "ds", "", "", 0⟩ ∧
    handlers.GetService "id9"
        (handlers.CreateService "id9" ⟨"", "nm", "sg", "ds", "", "", 0⟩
          ⟨[], [], "t"⟩).2 =
      ServiceResponse.okEntity ⟨"id9", "nm", "sg", "ds", "t", "t", 0⟩ :=
  ⟨(create_fetch_roundtrip "id9" ⟨"", "nm", "sg", "ds", "", "", 0⟩
      ⟨[], [], "t"⟩ (by decide) (by decide) (by decide)).1,
   (create_fetch_roundtrip "id9" ⟨"", "nm", "sg", "ds", "", "", 0⟩
      ⟨[], [], "t"⟩ (by decide) (by decide) (by decide)).2.1⟩

/-! ## Update and delete semantics -/

/-- Lemma: a stored row is changed by the `UPDATE` iff it carries the path
id and differs from the body in name, slug or description. -/
theorem serviceChanges_eq_true (id : String) (body r : Service) :
    database.serviceChanges id body r = true ↔
      r.ID = id ∧ ¬(r.Name = body.Name ∧ r.Slug = body.Slug ∧
        r.Description = body.Description) := by
  unfold database.serviceChanges
  simp [and_assoc]
  tauto

/-- Lemma: with a stored row that the `UPDATE` actually changes (it carries
the path id and differs from the body in at least one assigned column),
`UpdateService` takes its 200 branch. -/
theorem UpdateService_found (id : String) (body : Service) (db : DBState)
    (r : Service) (hr : r ∈ db.services) (hid : r.ID = id)
    (hdiff : r.Name ≠ body.Name ∨ r.Slug ≠ body.Slug ∨
      r.Description ≠ body.Description) :
    handlers.UpdateService id body db =
      (ServiceResponse.okEntity { body with ID := id },
        (database.UpdateService id body db).1) := by
  have hch : database.serviceChanges id body r = true := by
    rw [serviceChanges_eq_true]
    refine ⟨hid, ?_⟩
    rintro ⟨h1, h2, h3⟩
    rcases hdiff with h | h | h
    · exact h h1
    · exact h h2
    · exact h h3
  have hmemf : r ∈ db.services.filter (database.serviceChanges id body) :=
    List.mem_filter.mpr ⟨hr, hch⟩
  have hlen :
      (db.services.filter (database.serviceChanges id body)).length ≠ 0 := by
    intro h0
    rw [List.length_eq_zero] at h0
    rw [h0] at hmemf
    exact List.not_mem_nil r hmemf
  have hcond :
      (((db.services.filter (database.serviceChanges id body)).length : Int)
      == 0) = false := by
    rw [beq_eq_false_iff_ne]
    exact_mod_cast hlen
  simp only [handlers.UpdateService, database.UpdateService]
  rw [hcond]
  rfl

/-- Lemma: whichever branch the update handler takes, its successor store
is the accessor's successor store. -/
theorem UpdateService_state (id : String) (body : Service) (db : DBState) :
    (handlers.UpdateService id body db).2 =
      (database.UpdateService id body db).1 := by
  simp only [handlers.UpdateService]
  split <;> rfl

/-- Claim C9 counterexample: a well-formed update of the existing id
`"s1"` whose body repeats the stored name, slug and description changes no
row, so MySQL reports `RowsAffected = 0` (changed rows, the driver default
with no `clientFoundRows` in any DSN) and the handler answers 404 with no
entity — not the claimed 200 with the updated entity. -/
theorem updateService_identical_body_cx :
    (⟨"s1", "n", "sl", "d", "t1", "t1", 0⟩ : Service) ∈
      ([⟨"s1", "n", "sl", "d", "t1", "t1", 0⟩] : List Service) ∧
    (handlers.UpdateService "s1" ⟨"other", "n", "sl", "d", "", "", 9⟩
        ⟨[⟨"s1", "n", "sl", "d", "t1", "t1", 0⟩], [], "t2"⟩).1 =
      ServiceResponse.notFound "Service not found" := by
  decide

/-- Claim C9 (amended): for a well-formed update of an existing id, the
store is fully replaced, never merged — after the call every stored row
carrying the path id holds exactly the body's name, slug and description,
rows with other ids are untouched, and no row's identifier changes — and
whenever the body differs from the stored row in at least one of those
three fields the handler responds 200 with an entity carrying the path id,
whatever id the body carried.  A body identical to the stored row's three
fields, however, changes no row: MySQL's changed-rows `RowsAffected` is 0,
the handler answers 404 and the store is left unchanged. -/
theorem updateService_replaces_fields (id : String) (body : Service)
    (db : DBState) (r : Service) (hr : r ∈ db.services) (hid : r.ID = id) :
    (handlers.UpdateService id body db).2.services.map Service.ID =
      db.services.map Service.ID ∧
    (∀ r2 ∈ (handlers.UpdateService id body db).2.services, r2.ID = id →
      r2.Name = body.Name ∧ r2.Slug = body.Slug ∧
      r2.Description = body.Description) ∧
    (∀ r2 ∈ (handlers.UpdateService id body db).2.services, r2.ID ≠ id →
      r2 ∈ db.services) ∧
    ((r.Name ≠ body.Name ∨ r.Slug ≠ body.Slug ∨
        r.Description ≠ body.Description) →
      (handlers.UpdateService id body db).1 =
        ServiceResponse.okEntity { body with ID := id }) ∧
    ((∀ s ∈ db.services, s.ID = id →
        s.Name = body.Name ∧ s.Slug = body.Slug ∧
        s.Description = body.Description) →
      (handlers.UpdateService id body db).1 =
        ServiceResponse.notFound "Service not found" ∧
      (handlers.UpdateService id body db).2 = db) := by
  have hstate := UpdateService_state id body db
  refine ⟨?_, ?_, ?_, ?_, ?_⟩
  · rw [hstate]
    simp only [database.UpdateService, List.map_map]
    apply List.map_congr_left
    intro a _
    by_cases ha : database.serviceChanges id body a = true
    · simp [ha]
    · simp only [Bool.not_eq_true] at ha
      simp [ha]
  · intro r2 hr2 hr2id
    rw [hstate] at hr2
    simp only [database.UpdateService] at hr2
    rcases List.mem_map.mp hr2 with ⟨x, hx, rfl⟩
    by_cases hxc : database.serviceChanges id body x = true
    · rw [if_pos hxc] at hr2id ⊢
      exact ⟨rfl, rfl, rfl⟩
    · rw [if_neg hxc] at hr2id ⊢
      have hch : ¬(x.ID = id ∧ ¬(x.Name = body.Name ∧ x.Slug = body.Slug ∧
          x.Description = body.Description)) := by
        rw [← serviceChanges_eq_true]
        exact hxc
      by_contra hne
      exact hch ⟨hr2id, hne⟩
  · intro r2 hr2 hr2id
    rw [hstate] at hr2
    simp only [database.UpdateService] at hr2
    rcases List.mem_map.mp hr2 with ⟨x, hx, rfl⟩
    by_cases hxc : database.serviceChanges id body x = true
    · have hxid := ((serviceChanges_eq_true id body x).mp hxc).1
      rw [if_pos hxc] at hr2id
      exact absurd hxid hr2id
    · rw [if_neg hxc]
      exact hx
  · intro hdiff
    exact congrArg Prod.fst (UpdateService_found id body db r hr hid hdiff)
  · intro hall
    have hfil : db.services.filter (database.serviceChanges id body) = [] := by
      rw [List.filter_eq_nil_iff]
      intro a ha
      rw [serviceChanges_eq_true]
      rintro ⟨haid, hne⟩
      exact hne (hall a ha haid)
    have h1 : (handlers.UpdateService id body db).1 =
        ServiceResponse.notFound "Service not found" := by
      simp only [handlers.UpdateService, database.UpdateService, hfil]
      rfl
    refine ⟨h1, ?_⟩
    rw [hstate]
    simp only [database.UpdateService]
    have hmap : db.services.map (fun r2 =>
        if database.serviceChanges id body r2 then
          { r2 with
              Name := body.Name
              Slug := body.Slug
              Description := body.Description
              UpdatedAt := db.now }
        else r2) = db.services := by
      have hcongr := List.map_congr_left (l := db.services)
        (f := fun r2 =>
          if database.serviceChanges id body r2 then
            { r2 with
                Name := body.Name
                Slug := body.Slug
                Description := body.Description
                UpdatedAt := db.now }
          else r2)
        (g := fun a => a)
        (by
          intro a ha
          have hch : ¬(database.serviceChanges id body a = true) := by
            rw [serviceChanges_eq_true]
            rintro ⟨haid, hne⟩
            exact hne (hall a ha haid)
          dsimp only
          rw [if_neg hch])
      rw [hcongr]
      simp
    rw [hmap]

/-- Witness for `updateService_replaces_fields`: a differing body replaces
the stored fields with 200 and the path id; an identical body is answered
404. -/
theorem updateService_replaces_fields_witness :
    (handlers.UpdateService "s1" ⟨"other", "N2", "S2", "D2", "", "", 9⟩
        ⟨[⟨"s1", "n", "sl", "d", "t1", "t1", 0⟩], [], "t2"⟩).1 =
      ServiceResponse.okEntity ⟨"s1", "N2", "S2", "D2", "", "", 9⟩ ∧
    (handlers.UpdateService "s1" ⟨"other", "N2", "S2", "D2", "", "", 9⟩
        ⟨[⟨"s1", "n", "sl", "d", "t1", "t1", 0⟩], [], "t2"⟩).2.services.map
        Service.ID = ["s1"] ∧
    (handlers.UpdateService "s1" ⟨"x", "n", "sl", "d", "", "", 0⟩
        ⟨[⟨"s1", "n", "sl", "d", "t1", "t1", 0⟩], [], "t2"⟩).1 =
      ServiceResponse.notFound "Service not found" :=
  ⟨(updateService_replaces_fields "s1" ⟨"other", "N2", "S2", "D2", "", "", 9⟩
      ⟨[⟨"s1", "n", "sl", "d", "t1", "t1", 0⟩], [], "t2"⟩
      ⟨"s1", "n", "sl", "d", "t1", "t1", 0⟩ (by decide) rfl).2.2.2.1
      (Or.inl (by decide)),
   (updateService_replaces_fields "s1" ⟨"other", "N2", "S2", "D2", "", "", 9⟩
      ⟨[⟨"s1", "n", "sl", "d", "t1", "t1", 0⟩], [], "t2"⟩
      ⟨"s1", "n", "sl", "d", "t1", "t1", 0⟩ (by decide) rfl).1,
   ((updateService_replaces_fields "s1" ⟨"x", "n", "sl", "d", "", "", 0⟩
      ⟨[⟨"s1", "n", "sl", "d", "t1", "t1", 0⟩], [], "t2"⟩
      ⟨"s1", "n", "sl", "d", "t1", "t1", 0⟩ (by decide) rfl).2.2.2.2
      (by decide)).1⟩

/-- Lemma: `GetService` responds 404 exactly when no stored row carries the id. -/
theorem GetService_notFound_iff (id : String) (db : DBState) :
    handlers.GetService id db = ServiceResponse.notFound "Service not found"
      ↔ ∀ s ∈ db.services, s.ID ≠ id := by
  simp only [handlers.GetService, database.GetServiceByID]
  rcases hf : db.services.find? (fun s => s.ID == id) with _ | s
  · rw [hf]
    constructor
    · intro _ s hs
      have hp := List.find?_eq_none.mp hf s hs
      simpa using hp
    · intro _
      rfl
  · rw [hf]
    constructor
    · intro h
      exact ServiceResponse.noConfusion h
    · intro hall
      have hmem := List.mem_of_find?_eq_some hf
      have hps := List.find?_some hf
      exact absurd (by simpa using hps) (hall s hmem)

/-- Claim C10 counterexample: the id `"a1"` matches a stored row — the get
responds 200 with it — yet updating it with a body repeating its name, slug
and description is answered 404, because MySQL's changed-rows
`RowsAffected` is 0; so the update handler does not respond 404 exactly
when no row matches the id. -/
theorem update_nochange_notFound_cx :
    handlers.GetService "a1"
        ⟨[⟨"a1", "nm", "sg", "ds", "t0", "t0", 3⟩], [], "t9"⟩ =
      ServiceResponse.okEntity ⟨"a1", "nm", "sg", "ds", "t0", "t0", 3⟩ ∧
    (handlers.UpdateService "a1" ⟨"zz", "nm", "sg", "ds", "x", "x", 7⟩
        ⟨[⟨"a1", "nm", "sg", "ds", "t0", "t0", 3⟩], [], "t9"⟩).1 =
      ServiceResponse.notFound "Service not found" := by
  decide

/-- Claim C10 (amended): the get and delete handlers respond 404 exactly
when no stored row carries the path id; the update handler responds 404
exactly when the `UPDATE` changes no row — when no row matches the id *or*
every matching row already holds the body's name, slug and description
(MySQL's changed-rows `RowsAffected`) — which for a differing body reduces
to "no row matches".  Deleting an existing id responds 200, removes every
row with that id, and a subsequent get of that id responds 404. -/
theorem notFound_semantics (id : String) (body : Service) (db : DBState) :
    (handlers.GetService id db = ServiceResponse.notFound "Service not found"
      ↔ ∀ s ∈ db.services, s.ID ≠ id) ∧
    ((handlers.UpdateService id body db).1 =
        ServiceResponse.notFound "Service not found"
      ↔ ∀ s ∈ db.services, s.ID = id →
          s.Name = body.Name ∧ s.Slug = body.Slug ∧
          s.Description = body.Description) ∧
    ((handlers.DeleteService id db).1 =
        ServiceResponse.notFound "Service not found"
      ↔ ∀ s ∈ db.services, s.ID ≠ id) ∧
    ((∃ s ∈ db.services, s.ID = id) →
      (handlers.DeleteService id db).1 =
        ServiceResponse.okMessage "Service deleted" ∧
      (∀ s ∈ (handlers.DeleteService id db).2.services, s.ID ≠ id) ∧
      handlers.GetService id (handlers.DeleteService id db).2 =
        ServiceResponse.notFound "Service not found") := by
  have hdel2 : ∀ s ∈ (handlers.DeleteService id db).2.services, s.ID ≠ id := by
    intro s hs
    simp only [handlers.DeleteService, database.DeleteService] at hs
    have hs2 : s ∈ db.services.filter (fun r => !(r.ID == id)) := by
      rcases hc : (((db.services.filter (fun x => x.ID == id)).length : Int)
          == 0) with _ | _ <;> rw [hc] at hs <;> simpa using hs
    have := (List.mem_filter.mp hs2).2
    simpa using this
  refine ⟨GetService_notFound_iff id db, ?_, ?_, ?_⟩
  · by_cases hfil : db.services.filter (database.serviceChanges id body) = []
    · have h1 : (handlers.UpdateService id body db).1 =
          ServiceResponse.notFound "Service not found" := by
        simp only [handlers.UpdateService, database.UpdateService, hfil]
        rfl
      rw [h1]
      constructor
      · intro _ s hs hsid
        have hch := List.filter_eq_nil_iff.mp hfil s hs
        rw [serviceChanges_eq_true] at hch
        by_contra hne
        exact hch ⟨hsid, hne⟩
      · intro _
        rfl
    · rcases List.exists_mem_of_ne_nil _ hfil with ⟨x, hx⟩
      have hxmem := List.mem_filter.mp hx
      have hxprop := (serviceChanges_eq_true id body x).mp hxmem.2
      have h1 := congrArg Prod.fst (UpdateService_found id body db x hxmem.1
        hxprop.1 (by
          by_contra hne
          push_neg at hne
          exact hxprop.2 ⟨hne.1, hne.2.1, hne.2.2⟩))
      rw [h1]
      constructor
      · intro h
        exact ServiceResponse.noConfusion h
      · intro hall2
        exact absurd (hall2 x hxmem.1 hxprop.1) hxprop.2
  · by_cases hall : ∀ s ∈ db.services, s.ID ≠ id
    · have hfil : db.services.filter (fun x => x.ID == id) = [] := by
        rw [List.filter_eq_nil_iff]
        intro a ha
        simp [hall a ha]
      have h1 : (handlers.DeleteService id db).1 =
          ServiceResponse.notFound "Service not found" := by
        simp only [handlers.DeleteService, database.DeleteService, hfil]
        rfl
      rw [h1]
      simpa using hall
    · push_neg at hall
      rcases hall with ⟨r, hr, hid⟩
      have hmemf : r ∈ db.services.filter (fun x => x.ID == id) :=
        List.mem_filter.mpr ⟨hr, by simp [hid]⟩
      have hlen : (db.services.filter (fun x => x.ID == id)).length ≠ 0 := by
        intro h0
        rw [List.length_eq_zero] at h0
        rw [h0] at hmemf
        exact List.not_mem_nil r hmemf
      have hcond : (((db.services.filter (fun x => x.ID == id)).length : Int)
          == 0) = false := by
        rw [beq_eq_false_iff_ne]
        exact_mod_cast hlen
      have h1 : (handlers.DeleteService id db).1 =
          ServiceResponse.okMessage "Service deleted" := by
        simp only [handlers.DeleteService, database.DeleteService]
        rw [hcond]
        rfl
      rw [h1]
      constructor
      · intro h
        exact ServiceResponse.noConfusion h
      · intro hall2
        exact absurd hid (hall2 r hr)
  · intro hex
    rcases hex with ⟨r, hr, hid⟩
    have hmemf : r ∈ db.services.filter (fun x => x.ID == id) :=
      List.mem_filter.mpr ⟨hr, by simp [hid]⟩
    have hlen : (db.services.filter (fun x => x.ID == id)).length ≠ 0 := by
      intro h0
      rw [List.length_eq_zero] at h0
      rw [h0] at hmemf
      exact List.not_mem_nil r hmemf
    have hcond : (((db.services.filter (fun x => x.ID == id)).length : Int)
        == 0) = false := by
      rw [beq_eq_false_iff_ne]
      exact_mod_cast hlen
    have h1 : (handlers.DeleteService id db).1 =
        ServiceResponse.okMessage "Service deleted" := by
      simp only [handlers.DeleteService, database.DeleteService]
      rw [hcond]
      rfl
    exact ⟨h1, hdel2,
      (GetService_notFound_iff id (handlers.DeleteService id db).2).mpr hdel2⟩

/-- Witness for `notFound_semantics`: deleting a missing id is 404; a
no-change update of the stored `"s1"` is 404 although the row exists;
deleting `"s1"` responds 200 and the follow-up get is 404. -/
theorem notFound_semantics_witness :
    (handlers.DeleteService "zz"
        ⟨[⟨"s1", "n", "sl", "d", "t1", "t1", 0⟩], [], "t2"⟩).1 =
      ServiceResponse.notFound "Service not found" ∧
    (handlers.UpdateService "s1" ⟨"", "n", "sl", "d", "", "", 0⟩
        ⟨[⟨"s1", "n", "sl", "d", "t1", "t1", 0⟩], [], "t2"⟩).1 =
      ServiceResponse.notFound "Service not found" ∧
    (handlers.DeleteService "s1"
        ⟨[⟨"s1", "n", "sl", "d", "t1", "t1", 0⟩], [], "t2"⟩).1 =
      ServiceResponse.okMessage "Service deleted" ∧
    handlers.GetService "s1"
        (handlers.DeleteService "s1"
          ⟨[⟨"s1", "n", "sl", "d", "t1", "t1", 0⟩], [], "t2"⟩).2 =
      ServiceResponse.notFound "Service not found" :=
  ⟨(notFound_semantics "zz" ⟨"", "", "", "", "", "", 0⟩
      ⟨[⟨"s1", "n", "sl", "d", "t1", "t1", 0⟩], [], "t2"⟩).2.2.1.mpr
      (by decide),
   (notFound_semantics "s1" ⟨"", "n", "sl", "d", "", "", 0⟩
      ⟨[⟨"s1", "n", "sl", "d", "t1", "t1", 0⟩], [], "t2"⟩).2.1.mpr
      (by decide),
   ((notFound_semantics "s1" ⟨"", "", "", "", "", "", 0⟩
      ⟨[⟨"s1", "n", "sl", "d", "t1", "t1", 0⟩], [], "t2"⟩).2.2.2
      ⟨⟨"s1", "n", "sl", "d", "t1", "t1", 0⟩, by decide, rfl⟩).1,
   ((notFound_semantics "s1" ⟨"", "", "", "", "", "", 0⟩
      ⟨[⟨"s1", "n", "sl", "d", "t1", "t1", 0⟩], [], "t2"⟩).2.2.2
      ⟨⟨"s1", "n", "sl", "d", "t1", "t1", 0⟩, by decide, rfl⟩).2.2⟩

end Konnect
